import Mathlib

/-!
Verification of the game-session coordinator in `src/app.py` (WebchessV1.1).

The coordinator owns one board and one player identity (module-level globals
`board` and `player_name`) and exposes the handlers `start_game`, `end_game`,
`get_state`, `valid_moves` and `player_move`, plus the helpers `get_ai_move`
and `get_result_text`.  The chess rules themselves live in the external
`python-chess` library; we embed the coordinator parametrically over an
abstract interface `RulesEngine` capturing exactly the operations `app.py`
calls on it (`chess.Board()`, `board.fen()`, `board.legal_moves`,
`board.push`, `board.is_game_over()`, `board.result()`,
`chess.Move.from_uci`, `move.uci()`, `move.from_square`,
`chess.parse_square`).  Randomness (`random.choice`) is embedded as an index
into the legal-move list, and the primary Stockfish engine invocation is
embedded as an oracle `Nat → Option M` from the think-time budget to either a
move (engine available and successful) or `none` (engine absent, failed to
start, or raised — all of which the source catches and downgrades to the
random fallback).
-/

namespace Webchess

/-- Interface of the external rules engine (python-chess) restricted to the
operations `app.py` uses.  `moveFromUci` returns `none` where
`chess.Move.from_uci` raises, `uciError` is the raised exception's message
(`str(e)`), and `parseSquare` returns `none` where `chess.parse_square`
raises. -/
structure RulesEngine (B M : Type) where
  initBoard : B
  fen : B → String
  legalMoves : B → List M
  push : B → M → B
  isGameOver : B → Bool
  result : B → String
  moveFromUci : String → Option M
  uciError : String → String
  uci : M → String
  fromSquare : M → Nat
  parseSquare : String → Option Nat

/-- The coordinator's mutable globals: `board` and `player_name`
(`player_name` is `None` at module load, a string after `start_game`). -/
structure SessionState (B : Type) where
  board : B
  player_name : Option String
deriving DecidableEq

/-- JSON body of a `/player_move` request; `none` models an absent key
(`data.get(...)` returning `None`). -/
structure MoveRequest where
  move : Option String
  difficulty : Option String
  player : Option String
deriving DecidableEq

/-- JSON body of a `/start` request. -/
structure StartRequest where
  player : Option String
deriving DecidableEq

/-- The four JSON response shapes of `/player_move`:
`{"status":"error","message",..}`, `{"status":"illegal",..}`,
`{"status":"finished","result",..}`, `{"status":"ok","ai",..}`. -/
inductive MoveResponse where
  | err (message : String) (fen : String)
  | illegal (fen : String)
  | finished (result : String) (fen : String)
  | ok (ai : Option String) (fen : String)
deriving DecidableEq

/-- The `"status"` field of a `/player_move` response. -/
def MoveResponse.status : MoveResponse → String
  | .err _ _ => "error"
  | .illegal _ => "illegal"
  | .finished _ _ => "finished"
  | .ok _ _ => "ok"

/-- The `"fen"` field of a `/player_move` response (present in all four
shapes). -/
def MoveResponse.fenOf : MoveResponse → String
  | .err _ f => f
  | .illegal f => f
  | .finished _ f => f
  | .ok _ f => f

/-- JSON response of `/start`. -/
structure StartResponse where
  status : String
  player : String
  fen : String
deriving DecidableEq

/-- JSON response of `/end`. -/
structure ResetResponse where
  status : String
  fen : String
deriving DecidableEq

variable {B M : Type}

/-- `think_times = {"easy": 0.1, "medium": 0.5, "hard": 1.5}` with default
`0.5` (`think_times.get(level, 0.5)`), in milliseconds. -/
def think_time_ms (level : String) : Nat :=
  if level = "easy" then 100
  else if level = "medium" then 500
  else if level = "hard" then 1500
  else 500

/-- `get_ai_move` from `app.py`.  `engine` is the primary Stockfish path:
applied to the think-time budget it yields `some m` when the Windows engine
branch returns a move, and `none` when that branch is skipped (non-Windows),
the binary is missing, or `engine.play` raises — every such case falls
through to the random fallback in the source.  `random.choice(legal)` is
embedded as indexing with `i % legal.length`; the source returns `None` when
`legal` is empty. -/
def get_ai_move (R : RulesEngine B M) (b : B) (level : String)
    (engine : Nat → Option M) (i : Nat) : Option M :=
  match engine (think_time_ms level) with
  | some m => some m
  | none =>
    let legal := R.legalMoves b
    if legal.isEmpty then none
    else legal.get? (i % legal.length)

/-- The three-way outcome mapping inside `get_result_text`:
`"White wins" if res == "1-0" else "Black wins" if res == "0-1" else "Draw"`. -/
def resultStatus (res : String) : String :=
  if res = "1-0" then "White wins"
  else if res = "0-1" then "Black wins"
  else "Draw"

/-- `get_result_text(player, difficulty)` from `app.py`; `now` is the
rendered `datetime.datetime.now()`. -/
def get_result_text (R : RulesEngine B M) (b : B)
    (player difficulty now : String) : String :=
  "Game ended at " ++ now ++ "\n" ++
  "Player: " ++ player ++ "\n" ++
  "Difficulty: " ++ difficulty ++ "\n" ++
  "Result: " ++ resultStatus (R.result b) ++ " (" ++ R.result b ++ ")\n" ++
  "Final FEN: " ++ R.fen b ++ "\n" ++
  "--------------------------------------------------\n"

/-- `start_game` from `app.py`: `board = chess.Board()`,
`player_name = data.get("player", "Guest")`, returns
`{"status": "started", "player": player_name, "fen": board.fen()}`. -/
def start_game (R : RulesEngine B M) (st : SessionState B)
    (req : StartRequest) : StartResponse × SessionState B :=
  let name := req.player.getD "Guest"
  ({ status := "started", player := name, fen := R.fen R.initBoard },
   { board := R.initBoard, player_name := some name })

/-- `end_game` from `app.py`: `board = chess.Board()`, returns
`{"status": "reset", "fen": board.fen()}`.  The source touches only the
global `board`, never `player_name`. -/
def end_game (R : RulesEngine B M) (st : SessionState B) :
    ResetResponse × SessionState B :=
  ({ status := "reset", fen := R.fen R.initBoard },
   { board := R.initBoard, player_name := st.player_name })

/-- `valid_moves(square)` from `app.py`: parse the square, list the UCI of
legal moves whose `from_square` equals it; the `except` clause (a
`chess.parse_square` failure) yields the empty list. -/
def valid_moves (R : RulesEngine B M) (b : B) (square : String) :
    List String :=
  match R.parseSquare square with
  | none => []
  | some sq =>
      ((R.legalMoves b).filter (fun m => R.fromSquare m == sq)).map R.uci

/-- `player_move` from `app.py`, returning the JSON response, the updated
globals, and the list of records written by `log_result` during the call
(the source writes at most one).  `now` renders `datetime.datetime.now()`,
`engine`/`i` are the move-selection oracles of `get_ai_move`.  The Python
`if not move_uci` test is true for an absent key and for the empty string;
the `try` around `chess.Move.from_uci` is the `moveFromUci = none` branch. -/
def player_move [DecidableEq M] (R : RulesEngine B M) (st : SessionState B)
    (req : MoveRequest) (engine : Nat → Option M) (i : Nat) (now : String) :
    MoveResponse × SessionState B × List String :=
  let difficulty := req.difficulty.getD "medium"
  let player := req.player.getD "Guest"
  match req.move with
  | none => (.err "Missing move" (R.fen st.board), st, [])
  | some mu =>
    if mu = "" then (.err "Missing move" (R.fen st.board), st, [])
    else
      match R.moveFromUci mu with
      | none => (.err (R.uciError mu) (R.fen st.board), st, [])
      | some move =>
        if move ∈ R.legalMoves st.board then
          let b1 := R.push st.board move
          if R.isGameOver b1 then
            let txt := get_result_text R b1 player difficulty now
            (.finished txt (R.fen b1), { st with board := b1 }, [txt])
          else
            match get_ai_move R b1 difficulty engine i with
            | none => (.ok none (R.fen b1), { st with board := b1 }, [])
            | some ai =>
              let b2 := R.push b1 ai
              if R.isGameOver b2 then
                let txt := get_result_text R b2 player difficulty now
                (.finished txt (R.fen b2), { st with board := b2 }, [txt])
              else
                (.ok (some (R.uci ai)) (R.fen b2),
                 { st with board := b2 }, [])
        else (.illegal (R.fen st.board), st, [])

/-- A small concrete `RulesEngine` instance used to evaluate the parametric
theorems on concrete inputs.  Boards are `Nat` (0 is the initial board),
moves are `Nat`; a board `b < 3` has legal moves `[1, 2]`, `push` adds the
move, and any board `≥ 3` is over (so here a terminal board always has an
empty legal-move set). -/
def toyRE : RulesEngine Nat Nat where
  initBoard := 0
  fen := fun b => "toyfen" ++ toString b
  legalMoves := fun b => if b < 3 then [1, 2] else []
  push := fun b m => b + m
  isGameOver := fun b => decide (3 ≤ b)
  result := fun b => if b = 3 then "1-0" else "1/2-1/2"
  moveFromUci := fun s =>
    if s = "m1" then some 1
    else if s = "m2" then some 2
    else if s = "m9" then some 9
    else none
  uciError := fun s => "invalid uci: " ++ s
  uci := fun m => "m" ++ toString m
  fromSquare := fun m => m
  parseSquare := fun s =>
    if s = "sq1" then some 1 else if s = "sq2" then some 2 else none

/-- A two-board fragment of the real rules engine at a draw-by-insufficient-
material position (white Ka1 and Nb1 versus black Ka8).  python-chess
reports `is_game_over() = True` (insufficient material) at board 0, FEN
`k7/8/8/8/8/8/8/KN6 w - - 0 1`, yet `b1c3` is in `board.legal_moves`;
pushing it gives board 1, FEN `k7/8/8/8/8/2N5/8/K7 b - - 1 1`, still
terminal with `result() = "1/2-1/2"`.  Only the `b1c3` branch is spelled
out; the remaining legal moves of the position are irrelevant to the runs
below. -/
def insuffRE : RulesEngine Nat String where
  initBoard := 0
  fen := fun b =>
    if b = 0 then "k7/8/8/8/8/8/8/KN6 w - - 0 1"
    else "k7/8/8/8/8/2N5/8/K7 b - - 1 1"
  legalMoves := fun b => if b = 0 then ["b1c3"] else []
  push := fun b m => if b = 0 ∧ m = "b1c3" then 1 else 2
  isGameOver := fun _ => true
  result := fun _ => "1/2-1/2"
  moveFromUci := fun s => if s = "b1c3" then some "b1c3" else none
  uciError := fun s => "invalid uci: " ++ s
  uci := fun m => m
  fromSquare := fun _ => 1
  parseSquare := fun s => if s = "b1" then some 1 else none

/-- C1: a well-formed submitted move that is not in the current legal-move
set makes `player_move` return the `illegal` status carrying the position
string of the board as it was before the submission, with the session state
unchanged and no log record written. -/
theorem c1_illegal_leaves_state_unchanged [DecidableEq M]
    (R : RulesEngine B M) (st : SessionState B) (req : MoveRequest)
    (engine : Nat → Option M) (i : Nat) (now : String) (mu : String) (m : M)
    (hmu : req.move = some mu) (hne : mu ≠ "")
    (hparse : R.moveFromUci mu = some m)
    (hill : m ∉ R.legalMoves st.board) :
    player_move R st req engine i now =
      (MoveResponse.illegal (R.fen st.board), st, []) := by
  simp [player_move, hmu, hne, hparse, hill]

/-- C1 witness: on the toy engine from the initial board, `"m9"` parses to
move 9, which is not among the legal moves `[1, 2]`, and the submission is
rejected without any state change or log. -/
theorem c1_witness :
    player_move toyRE ⟨0, none⟩ ⟨some "m9", none, none⟩ (fun _ => none) 0 "t"
      = (MoveResponse.illegal (toyRE.fen 0), ⟨0, none⟩, []) :=
  c1_illegal_leaves_state_unchanged toyRE ⟨0, none⟩ ⟨some "m9", none, none⟩
    (fun _ => none) 0 "t" "m9" 9 rfl (by decide) (by decide) (by decide)

/-- C10: a request whose move field is the empty string is classified as
missing input: `player_move` returns the error status with message
`"Missing move"` and the current position, leaves the state unchanged and
writes no log, and behaves exactly as if the move field were absent (the
move parser is never reached). -/
theorem c10_empty_move_is_missing [DecidableEq M]
    (R : RulesEngine B M) (st : SessionState B) (req : MoveRequest)
    (engine : Nat → Option M) (i : Nat) (now : String)
    (h : req.move = some "") :
    player_move R st req engine i now =
      (MoveResponse.err "Missing move" (R.fen st.board), st, []) ∧
    player_move R st req engine i now =
      player_move R st { req with move := none } engine i now := by
  constructor
  · simp [player_move, h]
  · simp [player_move, h]

/-- C10 witness: on the toy engine, a request with move field `""` yields
the `"Missing move"` error and coincides with the absent-field request. -/
theorem c10_witness :
    player_move toyRE ⟨0, none⟩ ⟨some "", none, none⟩ (fun _ => none) 0 "t"
      = (MoveResponse.err "Missing move" (toyRE.fen 0), ⟨0, none⟩, []) ∧
    player_move toyRE ⟨0, none⟩ ⟨some "", none, none⟩ (fun _ => none) 0 "t"
      = player_move toyRE ⟨0, none⟩ ⟨none, none, none⟩ (fun _ => none) 0 "t" :=
  c10_empty_move_is_missing toyRE ⟨0, none⟩ ⟨some "", none, none⟩
    (fun _ => none) 0 "t" rfl

/-- C6: `start_game` and `end_game` both return the FEN of the freshly
constructed initial board and both leave the session holding that initial
board, independently of whatever state preceded them. -/
theorem c6_start_reset_always_initial (R : RulesEngine B M)
    (st st' : SessionState B) (req req' : StartRequest) :
    (start_game R st req).1.fen = R.fen R.initBoard ∧
    (end_game R st).1.fen = R.fen R.initBoard ∧
    (start_game R st req).2.board = R.initBoard ∧
    (end_game R st).2.board = R.initBoard ∧
    (start_game R st req).2.board = (start_game R st' req').2.board ∧
    (end_game R st).2.board = (end_game R st').2.board := by
  simp [start_game, end_game]

/-- C3 counterexample: `end_game` does not clear or reset the session
identity — from a state whose player name is `"Alice"`, the state after the
reset still has player name `"Alice"`, neither unset nor `"Guest"`. -/
theorem c3_counterexample :
    ¬ ((end_game toyRE ⟨5, some "Alice"⟩).2.player_name = none ∨
       (end_game toyRE ⟨5, some "Alice"⟩).2.player_name = some "Guest") := by
  decide

/-- C3 (amended): `end_game` resets the board exactly as `start_game` does
and always succeeds with the initial FEN, but it leaves the session
identity untouched rather than clearing it. -/
theorem c3_reset_keeps_identity (R : RulesEngine B M)
    (st : SessionState B) :
    (end_game R st).2.board = (start_game R st ⟨none⟩).2.board ∧
    (end_game R st).1.status = "reset" ∧
    (end_game R st).1.fen = R.fen R.initBoard ∧
    (end_game R st).2.player_name = st.player_name := by
  simp [start_game, end_game]

/-- C5 counterexample: starting with an explicit empty-string name does not
default the identity to `"Guest"` — the stored player name is `""`. -/
theorem c5_counterexample :
    (start_game toyRE ⟨0, none⟩ ⟨some ""⟩).2.player_name = some "" ∧
    (start_game toyRE ⟨0, none⟩ ⟨some ""⟩).2.player_name ≠ some "Guest" := by
  decide

/-- C5 (amended): `start_game` resets the board to the initial position and
returns the initial FEN; the identity defaults to `"Guest"` only when the
name field is absent, while any present name — the empty string included —
is stored verbatim. -/
theorem c5_start_sets_identity (R : RulesEngine B M)
    (st : SessionState B) (req : StartRequest) :
    (start_game R st req).2.board = R.initBoard ∧
    (start_game R st req).1.fen = R.fen R.initBoard ∧
    (req.player = none →
      (start_game R st req).2.player_name = some "Guest") ∧
    (∀ s, req.player = some s →
      (start_game R st req).2.player_name = some s) := by
  refine ⟨rfl, rfl, fun h => ?_, fun s h => ?_⟩
  · simp [start_game, h]
  · simp [start_game, h]

/-- C5 witness: with an absent name the identity becomes `"Guest"`, and
with the concrete name `""` it is stored as `""`. -/
theorem c5_witness :
    (start_game toyRE ⟨0, none⟩ ⟨none⟩).2.player_name = some "Guest" ∧
    (start_game toyRE ⟨0, none⟩ ⟨some ""⟩).2.player_name = some "" :=
  ⟨(c5_start_sets_identity toyRE ⟨0, none⟩ ⟨none⟩).2.2.1 rfl,
   (c5_start_sets_identity toyRE ⟨0, none⟩ ⟨some ""⟩).2.2.2 "" rfl⟩

/-- C2 counterexample: from a reachable terminal position that still has a
legal move (draw by insufficient material, K+N versus K), `player_move`
does mutate the board — the submitted legal move `b1c3` is applied, the
status is `"finished"` rather than illegal or error, and a further log
record is written. -/
theorem c2_counterexample :
    insuffRE.isGameOver
        ((⟨0, some "Alice"⟩ : SessionState Nat).board) = true ∧
    (player_move insuffRE ⟨0, some "Alice"⟩ ⟨some "b1c3", none, none⟩
        (fun _ => none) 0 "now").2.1.board = 1 ∧
    (player_move insuffRE ⟨0, some "Alice"⟩ ⟨some "b1c3", none, none⟩
        (fun _ => none) 0 "now").2.1 ≠ ⟨0, some "Alice"⟩ ∧
    (player_move insuffRE ⟨0, some "Alice"⟩ ⟨some "b1c3", none, none⟩
        (fun _ => none) 0 "now").1.status = "finished" ∧
    (player_move insuffRE ⟨0, some "Alice"⟩ ⟨some "b1c3", none, none⟩
        (fun _ => none) 0 "now").2.2 ≠ [] := by
  decide

/-- C2 (amended): in a terminal session state whose legal-move set is empty
(checkmate or stalemate), `player_move` never mutates the state — every
submission is rejected with the error or illegal status and no log record
is written.  Terminal states that still carry legal moves (insufficient-
material and similar draws) are not protected: a legal submission is
applied there. -/
theorem c2_terminal_empty_moves_rejects [DecidableEq M]
    (R : RulesEngine B M) (st : SessionState B) (req : MoveRequest)
    (engine : Nat → Option M) (i : Nat) (now : String)
    (hterm : R.isGameOver st.board = true)
    (hempty : R.legalMoves st.board = []) :
    (player_move R st req engine i now).2.1 = st ∧
    (player_move R st req engine i now).2.2 = [] ∧
    ((player_move R st req engine i now).1.status = "error" ∨
     (player_move R st req engine i now).1.status = "illegal") := by
  cases hm : req.move with
  | none => simp [player_move, hm, MoveResponse.status]
  | some mu =>
    by_cases hmu : mu = ""
    · simp [player_move, hm, hmu, MoveResponse.status]
    · cases hp : R.moveFromUci mu with
      | none => simp [player_move, hm, hmu, hp, MoveResponse.status]
      | some m => simp [player_move, hm, hmu, hp, hempty, MoveResponse.status]

/-- C2 witness: toy board 3 is terminal with an empty legal-move set, and a
submission of the (parseable) move `"m1"` there is rejected with the state
unchanged and no log. -/
theorem c2_witness :
    (player_move toyRE ⟨3, some "Alice"⟩ ⟨some "m1", none, none⟩
        (fun _ => none) 0 "t").2.1 = ⟨3, some "Alice"⟩ ∧
    (player_move toyRE ⟨3, some "Alice"⟩ ⟨some "m1", none, none⟩
        (fun _ => none) 0 "t").2.2 = [] ∧
    ((player_move toyRE ⟨3, some "Alice"⟩ ⟨some "m1", none, none⟩
        (fun _ => none) 0 "t").1.status = "error" ∨
     (player_move toyRE ⟨3, some "Alice"⟩ ⟨some "m1", none, none⟩
        (fun _ => none) 0 "t").1.status = "illegal") :=
  c2_terminal_empty_moves_rejects toyRE ⟨3, some "Alice"⟩
    ⟨some "m1", none, none⟩ (fun _ => none) 0 "t" (by decide) (by decide)

set_option maxRecDepth 10000 in
/-- C4 counterexample: the identity written to the log comes from the move
request, not from the session identity set on start — with stored identity
`"Alice"` and a terminating submission whose player field is absent, the
record written says `Player: Guest`, and it differs from the record that
would carry the session identity. -/
theorem c4_counterexample :
    (⟨0, some "Alice"⟩ : SessionState Nat).player_name = some "Alice" ∧
    (player_move insuffRE ⟨0, some "Alice"⟩ ⟨some "b1c3", none, none⟩
        (fun _ => none) 0 "T").2.2 =
      ["Game ended at T\nPlayer: Guest\nDifficulty: medium\nResult: Draw (1/2-1/2)\nFinal FEN: k7/8/8/8/8/2N5/8/K7 b - - 1 1\n--------------------------------------------------\n"] ∧
    get_result_text insuffRE 1 "Guest" "medium" "T" ≠
      get_result_text insuffRE 1 "Alice" "medium" "T" := by
  decide

/-- C4 (amended): when the human move terminates the game, exactly one log
record is written, its fields appear in the fixed order timestamp, player
identity, difficulty, outcome, terminal FEN, and the player identity it
carries is the move request's player field (defaulting to `"Guest"`), not
the session identity stored at start. -/
theorem c4_log_fields_from_request [DecidableEq M]
    (R : RulesEngine B M) (st : SessionState B) (req : MoveRequest)
    (engine : Nat → Option M) (i : Nat) (now : String) (mu : String) (m : M)
    (hmu : req.move = some mu) (hne : mu ≠ "")
    (hparse : R.moveFromUci mu = some m)
    (hleg : m ∈ R.legalMoves st.board)
    (hterm : R.isGameOver (R.push st.board m) = true) :
    (player_move R st req engine i now).2.2 =
      ["Game ended at " ++ now ++ "\n" ++
       "Player: " ++ req.player.getD "Guest" ++ "\n" ++
       "Difficulty: " ++ req.difficulty.getD "medium" ++ "\n" ++
       "Result: " ++ resultStatus (R.result (R.push st.board m)) ++ " (" ++
         R.result (R.push st.board m) ++ ")\n" ++
       "Final FEN: " ++ R.fen (R.push st.board m) ++ "\n" ++
       "--------------------------------------------------\n"] := by
  simp [player_move, hmu, hne, hparse, hleg, hterm, get_result_text]

/-- C4 witness: on the toy engine, the terminating submission `"m2"` from
board 1 writes one record whose fields follow the fixed order and whose
player field defaults to `"Guest"` from the request. -/
theorem c4_witness :
    (player_move toyRE ⟨1, some "Alice"⟩ ⟨some "m2", none, none⟩
        (fun _ => none) 0 "t").2.2 =
      ["Game ended at " ++ "t" ++ "\n" ++
       "Player: " ++ (none : Option String).getD "Guest" ++ "\n" ++
       "Difficulty: " ++ (none : Option String).getD "medium" ++ "\n" ++
       "Result: " ++ resultStatus (toyRE.result (toyRE.push 1 2)) ++ " (" ++
         toyRE.result (toyRE.push 1 2) ++ ")\n" ++
       "Final FEN: " ++ toyRE.fen (toyRE.push 1 2) ++ "\n" ++
       "--------------------------------------------------\n"] :=
  c4_log_fields_from_request toyRE ⟨1, some "Alice"⟩ ⟨some "m2", none, none⟩
    (fun _ => none) 0 "t" "m2" 2 rfl (by decide) (by decide) (by decide)
    (by decide)

/-- Unfolding of `get_ai_move` when the primary engine yields nothing: the
call lands in the random-fallback branch over the current legal moves. -/
theorem get_ai_move_fallback_eq (R : RulesEngine B M) (b : B)
    (level : String) (i : Nat) :
    get_ai_move R b level (fun _ => none) i =
      (if (R.legalMoves b).isEmpty then none
       else (R.legalMoves b).get? (i % (R.legalMoves b).length)) := rfl

/-- C7: when the primary engine is unavailable or errors (the oracle yields
nothing, as the source's `except` downgrades every failure), `get_ai_move`
returns no move exactly when the legal-move set is empty, any move it
returns is a member of the legal-move set, and every legal move is returned
for some draw of the random index — no engine error reaches the caller. -/
theorem c7_fallback_from_legal_moves (R : RulesEngine B M) (b : B)
    (level : String) (i : Nat) :
    (get_ai_move R b level (fun _ => none) i = none ↔
      R.legalMoves b = []) ∧
    (∀ m, get_ai_move R b level (fun _ => none) i = some m →
      m ∈ R.legalMoves b) ∧
    (∀ m, m ∈ R.legalMoves b →
      ∃ j, get_ai_move R b level (fun _ => none) j = some m) := by
  by_cases hl : R.legalMoves b = []
  · refine ⟨?_, ?_, ?_⟩
    · simp [get_ai_move_fallback_eq, hl]
    · intro m hm
      rw [get_ai_move_fallback_eq, hl] at hm
      simp at hm
    · intro m hm
      rw [hl] at hm
      simp at hm
  · have hlen : 0 < (R.legalMoves b).length := List.length_pos.mpr hl
    have hemp : ¬ ((R.legalMoves b).isEmpty = true) := by
      simp [List.isEmpty_iff, hl]
    refine ⟨?_, ?_, ?_⟩
    · constructor
      · intro h
        exfalso
        rw [get_ai_move_fallback_eq, if_neg hemp] at h
        have hlt : i % (R.legalMoves b).length < (R.legalMoves b).length :=
          Nat.mod_lt _ hlen
        have hsome := List.get?_eq_some.mpr ⟨hlt, rfl⟩
        rw [h] at hsome
        exact Option.noConfusion hsome
      · intro h
        exact absurd h hl
    · intro m hm
      rw [get_ai_move_fallback_eq, if_neg hemp] at hm
      exact List.get?_mem hm
    · intro m hm
      obtain ⟨n, hn⟩ := List.mem_iff_get?.mp hm
      have hnlt : n < (R.legalMoves b).length := (List.get?_eq_some.mp hn).1
      refine ⟨n, ?_⟩
      rw [get_ai_move_fallback_eq, if_neg hemp, Nat.mod_eq_of_lt hnlt, hn]

/-- C7 witness: on the toy engine with the primary engine unavailable, the
move returned from board 0 is legal, board 3 (no legal moves) yields no
move, and the legal move 2 is produced by some random index. -/
theorem c7_witness :
    (1 : Nat) ∈ toyRE.legalMoves 0 ∧
    get_ai_move toyRE 3 "medium" (fun _ => none) 0 = none ∧
    (∃ j, get_ai_move toyRE 0 "medium" (fun _ => none) j = some 2) :=
  ⟨(c7_fallback_from_legal_moves toyRE 0 "medium" 0).2.1 1 (by decide),
   (c7_fallback_from_legal_moves toyRE 3 "medium" 0).1.mpr (by decide),
   (c7_fallback_from_legal_moves toyRE 0 "medium" 0).2.2 2 (by decide)⟩

/-- C8: the outcome label is derived from the three-way result code —
`"1-0"` maps to `"White wins"`, `"0-1"` to `"Black wins"`, any other code
to `"Draw"` — and the log record carries the label together with the raw
code, in the fixed field order timestamp, player, difficulty, outcome,
terminal FEN. -/
theorem c8_outcome_mapping (R : RulesEngine B M) (b : B)
    (p d now : String) :
    resultStatus "1-0" = "White wins" ∧
    resultStatus "0-1" = "Black wins" ∧
    (∀ res, res ≠ "1-0" → res ≠ "0-1" → resultStatus res = "Draw") ∧
    get_result_text R b p d now =
      "Game ended at " ++ now ++ "\n" ++
      "Player: " ++ p ++ "\n" ++
      "Difficulty: " ++ d ++ "\n" ++
      "Result: " ++ resultStatus (R.result b) ++ " (" ++ R.result b ++ ")\n" ++
      "Final FEN: " ++ R.fen b ++ "\n" ++
      "--------------------------------------------------\n" := by
  refine ⟨rfl, rfl, fun res h1 h2 => ?_, rfl⟩
  simp [resultStatus, h1, h2]

/-- C8 witness: the draw code `"1/2-1/2"` is neither win code and maps to
`"Draw"`. -/
theorem c8_witness : resultStatus "1/2-1/2" = "Draw" :=
  (c8_outcome_mapping toyRE 0 "p" "d" "t").2.2.1 "1/2-1/2" (by decide)
    (by decide)

/-- C9: `valid_moves` returns the empty list when the square fails to
parse (malformed or out of range), and when it parses the result is
exactly the UCI strings of the legal moves whose origin is that square —
in particular the empty list when no legal move starts there; the
embedding is total, the source's `except` branch being the parse-failure
case. -/
theorem c9_valid_moves_exact (R : RulesEngine B M) (b : B)
    (square : String) :
    (R.parseSquare square = none → valid_moves R b square = []) ∧
    (∀ sq, R.parseSquare square = some sq →
      (∀ u, u ∈ valid_moves R b square ↔
        ∃ m, m ∈ R.legalMoves b ∧ R.fromSquare m = sq ∧ R.uci m = u) ∧
      ((R.legalMoves b).filter (fun m => R.fromSquare m == sq) = [] →
        valid_moves R b square = [])) := by
  refine ⟨fun h => ?_, fun sq h => ⟨fun u => ?_, fun hf => ?_⟩⟩
  · simp [valid_moves, h]
  · simp only [valid_moves, h, List.mem_map, List.mem_filter, beq_iff_eq]
    constructor
    · rintro ⟨m, ⟨h1, h2⟩, h3⟩
      exact ⟨m, h1, h2, h3⟩
    · rintro ⟨m, h1, h2, h3⟩
      exact ⟨m, ⟨h1, h2⟩, h3⟩
  · simp [valid_moves, h, hf]

/-- C9 witness: on the toy engine, `"sq1"` parses to square 1 and the
moves from it are characterized as stated (`"m1"` is one of them), while
the malformed square `"zz"` yields the empty list. -/
theorem c9_witness :
    (("m1" ∈ valid_moves toyRE 0 "sq1") ↔
      ∃ m, m ∈ toyRE.legalMoves 0 ∧ toyRE.fromSquare m = 1 ∧
        toyRE.uci m = "m1") ∧
    valid_moves toyRE 0 "zz" = [] :=
  ⟨((c9_valid_moves_exact toyRE 0 "sq1").2 1 (by decide)).1 "m1",
   (c9_valid_moves_exact toyRE 0 "zz").1 (by decide)⟩

end Webchess
